import Mathlib

/-!
Verification of the numeric helper module `demo/deep/nested/math.py`.

The module defines two pure functions over an in-memory sequence of numbers:

* `calculate_total(items)` returns `sum(items)`;
* `calculate_average(items)` returns `0` when `items` is empty and
  `calculate_total(items) / len(items)` otherwise.

We shallowly embed both functions over Lean lists.  Numbers are modelled by
the rationals `ℚ` (exact arithmetic; the spec scopes out floating-point
concerns), and `calculate_total` is additionally kept polymorphic in the
element type, mirroring the duck-typed Python `sum`, so that claims about
integer inputs can be stated over `List ℤ` directly.  Python's `sum`
accumulates left-to-right starting from `0`, hence the `foldl`.
-/

/-- Embedding of `calculate_total`: Python `sum(items)` accumulates
left-to-right starting from the integer `0`. -/
def calculate_total {α : Type} [Add α] [Zero α] (items : List α) : α :=
  items.foldl (· + ·) 0

/-- Embedding of `calculate_average`: Python `if not items: return 0` tests
emptiness of the list; otherwise the function returns
`calculate_total(items) / len(items)`. -/
def calculate_average (items : List ℚ) : ℚ :=
  if items.isEmpty then 0
  else calculate_total items / (items.length : ℚ)

/-- Instrumented embedding of the traversal performed by `sum`: the sequence
is threaded through the iteration as explicit state, so that we can observe
that the loop only reads it.  Each step consumes the head, adds it to the
accumulator, and reassembles the sequence unchanged. -/
def sumIter (acc : ℚ) : List ℚ → ℚ × List ℚ
  | [] => (acc, [])
  | x :: rest =>
    let r := sumIter (acc + x) rest
    (r.1, x :: r.2)

/-- State-passing form of `calculate_total`: returns the result together with
the sequence as it stands after the call. -/
def calculate_total_st (items : List ℚ) : ℚ × List ℚ :=
  sumIter 0 items

/-- State-passing form of `calculate_average`: returns the result together
with the sequence as it stands after the call (the non-empty branch first
runs `calculate_total`, then reads `len` of the resulting sequence). -/
def calculate_average_st (items : List ℚ) : ℚ × List ℚ :=
  if items.isEmpty then (0, items)
  else
    let r := calculate_total_st items
    (r.1 / (r.2.length : ℚ), r.2)

/-- Division returning `none` exactly when the divisor is zero; used to make
the potential division-by-zero failure of `/` observable. -/
def checkedDiv (a b : ℚ) : Option ℚ :=
  if b = 0 then none else some (a / b)

/-- Embedding of `calculate_average` in which the division is fallible:
the result is `none` precisely when the source would raise
`ZeroDivisionError`. -/
def calculate_average_checked (items : List ℚ) : Option ℚ :=
  if items.isEmpty then some 0
  else checkedDiv (calculate_total items) (items.length : ℚ)

/-- Helper: the left fold performed by `sum` computes the list sum. -/
theorem calculate_total_eq_sum {α : Type} [AddCommMonoid α] (items : List α) :
    calculate_total items = items.sum := by
  simp [calculate_total, List.sum_eq_foldl]

/-- Helper: the instrumented traversal leaves the sequence unchanged. -/
theorem sumIter_snd (acc : ℚ) (items : List ℚ) :
    (sumIter acc items).2 = items := by
  induction items generalizing acc with
  | nil => rfl
  | cons x rest ih => simp [sumIter, ih]

/-- Helper: the instrumented traversal computes the accumulator plus the
fold of the tail, matching `calculate_total`. -/
theorem sumIter_fst (acc : ℚ) (items : List ℚ) :
    (sumIter acc items).1 = items.foldl (· + ·) acc := by
  induction items generalizing acc with
  | nil => rfl
  | cons x rest ih => simp [sumIter, ih]

/-- Helper: the state-passing total computes the same value as the pure one. -/
theorem calculate_total_st_fst (items : List ℚ) :
    (calculate_total_st items).1 = calculate_total items := by
  simp [calculate_total_st, calculate_total, sumIter_fst]

/-- C1: for the empty input sequence, `average` returns zero rather than
failing with a division-by-zero error; the empty input is not an error
condition of `average`. -/
theorem average_empty_is_zero : calculate_average [] = 0 := rfl

/-- C2: for every finite numeric sequence `xs` with positive length,
`average(xs)` equals `total(xs)` divided by `len(xs)`. -/
theorem average_eq_total_div_length (xs : List ℚ) (h : 0 < xs.length) :
    calculate_average xs = calculate_total xs / (xs.length : ℚ) := by
  cases xs with
  | nil => simp at h
  | cons x rest => rfl

/-- Witness for C2 at the concrete input `[1, 2, 3, 4]`. -/
theorem average_eq_total_div_length_witness :
    0 < ([1, 2, 3, 4] : List ℚ).length ∧
      calculate_average [1, 2, 3, 4] =
        calculate_total [1, 2, 3, 4] / (([1, 2, 3, 4] : List ℚ).length : ℚ) :=
  ⟨by decide, average_eq_total_div_length [1, 2, 3, 4] (by decide)⟩

/-- C3: for every finite numeric sequence, the result of `total` equals the
mathematical sum of all elements of the sequence. -/
theorem total_eq_mathematical_sum (xs : List ℚ) :
    calculate_total xs = xs.sum :=
  calculate_total_eq_sum xs

/-- C4: for the empty sequence, `total` returns zero (the additive
identity), and `average` also returns zero. -/
theorem total_and_average_empty :
    calculate_total ([] : List ℚ) = 0 ∧ calculate_average [] = 0 :=
  ⟨rfl, rfl⟩

/-- C5: for every number `v`, `total([v]) = v` and `average([v]) = v`. -/
theorem total_and_average_singleton (v : ℚ) :
    calculate_total [v] = v ∧ calculate_average [v] = v := by
  constructor
  · simp [calculate_total]
  · simp [calculate_average, calculate_total]

/-- C6: the concrete scenarios of the spec hold:
`total([1,2,3,4]) = 10`, `average([1,2,3,4]) = 2.5`, `total([-5,5]) = 0`,
and `average([10]) = 10`. -/
theorem concrete_scenarios :
    calculate_total ([1, 2, 3, 4] : List ℚ) = 10 ∧
      calculate_average [1, 2, 3, 4] = 2.5 ∧
      calculate_total ([-5, 5] : List ℚ) = 0 ∧
      calculate_average [10] = 10 := by
  refine ⟨?_, ?_, ?_, ?_⟩ <;> norm_num [calculate_total, calculate_average]

/-- C7: for every finite sequence of integers and every permutation of it,
`total` of the permutation equals `total` of the original. -/
theorem total_perm_invariant (xs ys : List ℤ) (h : xs.Perm ys) :
    calculate_total ys = calculate_total xs := by
  rw [calculate_total_eq_sum, calculate_total_eq_sum]
  exact (List.Perm.sum_eq h).symm

/-- Witness for C7 at the concrete permutation `[1, 2, 3] ~ [3, 1, 2]`. -/
theorem total_perm_invariant_witness :
    ([1, 2, 3] : List ℤ).Perm [3, 1, 2] ∧
      calculate_total ([3, 1, 2] : List ℤ) = calculate_total [1, 2, 3] :=
  ⟨by decide, total_perm_invariant [1, 2, 3] [3, 1, 2] (by decide)⟩

/-- C8: `total` and `average` are deterministic (equal inputs give equal
results), and the result of `average` depends only on the total of the
sequence and on its element count. -/
theorem deterministic_and_average_depends_only_on_total_and_count
    (xs ys : List ℚ) :
    (xs = ys → calculate_total xs = calculate_total ys ∧
      calculate_average xs = calculate_average ys) ∧
    (calculate_total xs = calculate_total ys → xs.length = ys.length →
      calculate_average xs = calculate_average ys) := by
  refine ⟨fun h => by rw [h]; exact ⟨rfl, rfl⟩, fun ht hl => ?_⟩
  cases xs with
  | nil =>
    cases ys with
    | nil => rfl
    | cons y t => simp at hl
  | cons x s =>
    cases ys with
    | nil => simp at hl
    | cons y t =>
      simp only [calculate_average, List.isEmpty_cons, if_neg Bool.false_ne_true,
        Bool.false_eq_true]
      rw [ht, hl]

/-- Witness for C8 at the concrete inputs `[1, 3]` and `[2, 2]`, which have
equal totals and equal lengths. -/
theorem deterministic_witness :
    (([1, 3] : List ℚ) = [1, 3] →
      calculate_total ([1, 3] : List ℚ) = calculate_total [1, 3] ∧
      calculate_average [1, 3] = calculate_average [1, 3]) ∧
    calculate_total ([1, 3] : List ℚ) = calculate_total [2, 2] ∧
    ([1, 3] : List ℚ).length = ([2, 2] : List ℚ).length ∧
    calculate_average ([1, 3] : List ℚ) = calculate_average [2, 2] :=
  ⟨(deterministic_and_average_depends_only_on_total_and_count [1, 3] [1, 3]).1,
   by norm_num [calculate_total], by decide,
   (deterministic_and_average_depends_only_on_total_and_count [1, 3] [2, 2]).2
     (by norm_num [calculate_total]) (by decide)⟩

/-- C9: neither operation modifies its input: the sequence threaded through
the state-passing embeddings is returned unchanged. -/
theorem input_sequence_unchanged (xs : List ℚ) :
    (calculate_total_st xs).2 = xs ∧ (calculate_average_st xs).2 = xs := by
  refine ⟨sumIter_snd 0 xs, ?_⟩
  unfold calculate_average_st
  by_cases h : xs.isEmpty
  · rw [if_pos h]
  · rw [if_neg h]
    exact sumIter_snd 0 xs

/-- C10: the division inside `average` is guarded: the fallible embedding,
whose division returns `none` exactly when the divisor is zero, always
succeeds and agrees with `calculate_average`; both functions are total. -/
theorem division_always_guarded (xs : List ℚ) :
    calculate_average_checked xs = some (calculate_average xs) := by
  cases xs with
  | nil => rfl
  | cons x rest =>
    have hne : ((rest.length : ℚ) + 1) ≠ 0 := Nat.cast_add_one_ne_zero rest.length
    simp [calculate_average_checked, calculate_average, checkedDiv, hne]
